import Mathlib

/-!
Verification of `@perkos/util-config` (`src/src/index.ts`).

The library reads a process-wide environment snapshot (string names to
string values) and resolves typed configuration values from it.  We embed
the environment as `Env := String → Option String` (`none` models a
variable that was never set, which JavaScript sees as `undefined`).

The host-language parsing primitives `parseFloat` (combined with the
`isNaN` check on its result) and `JSON.parse` are not part of this
repository; the embedding is parameterised over them by a `Platform`
structure, where `none` models a NaN result of `parseFloat` and a
`JSON.parse` throw respectively.  Numbers are modelled as rationals.
-/

namespace Config

/-- An environment snapshot: `process.env` as a read-only mapping.
`none` means the variable was never set (`undefined` in JavaScript),
which is distinct from being set to the empty string. -/
abbrev Env : Type := String → Option String

/-- The `type` field of an `EnvVarConfig`:
`"string" | "number" | "boolean" | "json"`. -/
inductive VarType where
  | string
  | number
  | boolean
  | json
  deriving DecidableEq

/-- A scalar usable as a `default`: `string | number | boolean`. -/
inductive Scalar where
  | str (s : String)
  | num (q : Rat)
  | bool (b : Bool)
  deriving DecidableEq

/-- A resolved configuration value (the `unknown` result universe):
a raw string, a parsed number, a parsed boolean, a parsed JSON document
(of abstract type `J`), or JavaScript's `undefined`. -/
inductive Value (J : Type) where
  | str (s : String)
  | num (q : Rat)
  | bool (b : Bool)
  | json (j : J)
  | undef
  deriving DecidableEq

/-- Embedding a `default` scalar into the value universe verbatim. -/
def Scalar.toValue {J : Type} : Scalar → Value J
  | Scalar.str s => Value.str s
  | Scalar.num q => Value.num q
  | Scalar.bool b => Value.bool b

/-- The host-language parsing primitives used by the library.
`parseNumber` models `parseFloat` followed by the `isNaN` rejection
(`none` exactly when `parseFloat` returns NaN); `parseJson` models
`JSON.parse` (`none` exactly when it throws). -/
structure Platform (J : Type) where
  parseNumber : String → Option Rat
  parseJson : String → Option J

/-- `EnvVarConfig`: the per-variable rule.  `required?: boolean` is
modelled as a `Bool` (an unset optional boolean field is falsy, like
`false`); `default`, `type`, `validator` and `transform` are optional
fields, `none` meaning unset. -/
structure EnvVarConfig (J : Type) where
  required : Bool := false
  default : Option Scalar := none
  type : Option VarType := none
  validator : Option (String → Bool) := none
  transform : Option (String → Value J) := none

/-- `EnvConfig`: the schema.  `vars` is an insertion-ordered mapping from
logical key to rule (`Object.entries` order); `prfx` embeds the optional
`prefix` field; `strict` is kept as an optional boolean because the code
tests `config.strict !== false`, which distinguishes unset from `false`. -/
structure EnvConfig (J : Type) where
  vars : List (String × EnvVarConfig J)
  prfx : Option String := none
  strict : Option Bool := none

/-- ASCII lower-casing of one character, as `toLowerCase` acts on the
ASCII range (the only range exercised by this library's comparisons). -/
def asciiLower (c : Char) : Char :=
  if 'A' ≤ c ∧ c ≤ 'Z' then Char.ofNat (c.toNat + 32) else c

/-- `value.toLowerCase()` on the ASCII range. -/
def jsToLower (s : String) : String :=
  String.mk (s.data.map asciiLower)

/-- The boolean coercion used throughout the library:
`value.toLowerCase() === "true" || value === "1"`. -/
def jsBool (v : String) : Bool :=
  jsToLower v == "true" || v == "1"

/-- `const prefix = config.prefix ? prefix + "_" : ""` — note the
truthiness test: an empty-string prefix behaves like no prefix. -/
def prefixString (p : Option String) : String :=
  match p with
  | none => ""
  | some s => if s = "" then "" else s ++ "_"

/-! ### Environment accessors (§4.1) -/

/-- `getEnv(key, defaultValue)`: `process.env[key] ?? defaultValue`. -/
def getEnv (env : Env) (key : String) (defaultValue : Option String) : Option String :=
  match env key with
  | some v => some v
  | none => defaultValue

/-- `getRequiredEnv(key)`: throws when the variable is `undefined` or
the empty string, otherwise returns the raw value. -/
def getRequiredEnv (env : Env) (key : String) : Except String String :=
  match env key with
  | none => Except.error ("Required environment variable " ++ key ++ " is not set")
  | some v =>
    if v = "" then Except.error ("Required environment variable " ++ key ++ " is not set")
    else Except.ok v

/-- `getEnvBoolean(key, defaultValue)`. -/
def getEnvBoolean (env : Env) (key : String) (defaultValue : Option Bool) : Option Bool :=
  match env key with
  | none => defaultValue
  | some v => some (jsBool v)

/-! ### `createConfig` (§4.2), decomposed by the source's branches -/

/-- The missing-value branch of `createConfig`'s loop body
(`rawValue === undefined || rawValue === ""`). -/
def resolveMissing {J : Type} (envKey : String) (strict : Option Bool)
    (vc : EnvVarConfig J) : Except String (Value J) :=
  if vc.required && !(strict == some false) then
    Except.error ("Required environment variable " ++ envKey ++ " is not set")
  else
    match vc.default with
    | some d => Except.ok d.toValue
    | none => Except.ok Value.undef

/-- The `switch (varConfig.type)` of `createConfig`; the `default` arm
(covering `"string"` and an unset `type`) returns the raw string. -/
def coerceByType {J : Type} (P : Platform J) (envKey : String)
    (ty : Option VarType) (rawValue : String) : Except String (Value J) :=
  match ty with
  | some VarType.number =>
    match P.parseNumber rawValue with
    | none => Except.error ("Invalid number for environment variable " ++ envKey)
    | some q => Except.ok (Value.num q)
  | some VarType.boolean => Except.ok (Value.bool (jsBool rawValue))
  | some VarType.json =>
    match P.parseJson rawValue with
    | none => Except.error ("Invalid JSON for environment variable " ++ envKey)
    | some j => Except.ok (Value.json j)
  | _ => Except.ok (Value.str rawValue)

/-- The present-value branch of `createConfig`'s loop body: validator
check, then transform, then type coercion. -/
def resolvePresent {J : Type} (P : Platform J) (envKey : String)
    (vc : EnvVarConfig J) (rawValue : String) : Except String (Value J) :=
  if (match vc.validator with
      | some f => !(f rawValue)
      | none => false) then
    Except.error ("Invalid value for environment variable " ++ envKey)
  else
    match vc.transform with
    | some t => Except.ok (t rawValue)
    | none => coerceByType P envKey vc.type rawValue

/-- One iteration of `createConfig`'s loop: resolve a single schema key. -/
def resolveOne {J : Type} (P : Platform J) (env : Env) (prfx : String)
    (strict : Option Bool) (key : String) (vc : EnvVarConfig J) :
    Except String (Value J) :=
  let envKey := prfx ++ key
  match env envKey with
  | none => resolveMissing envKey strict vc
  | some rawValue =>
    if rawValue = "" then resolveMissing envKey strict vc
    else resolvePresent P envKey vc rawValue

/-- `createConfig`'s loop over `Object.entries(config.vars)`: fail-fast,
the first error aborts with no partial result. -/
def createConfigList {J : Type} (P : Platform J) (env : Env) (prfx : String)
    (strict : Option Bool) :
    List (String × EnvVarConfig J) → Except String (List (String × Value J))
  | [] => Except.ok []
  | (k, vc) :: rest =>
    match resolveOne P env prfx strict k vc with
    | Except.error e => Except.error e
    | Except.ok v =>
      match createConfigList P env prfx strict rest with
      | Except.error e => Except.error e
      | Except.ok tail => Except.ok ((k, v) :: tail)

/-- `createConfig(config)`: resolves every schema key against the
environment, or throws (`Except.error`) on the first failure. -/
def createConfig {J : Type} (P : Platform J) (env : Env) (cfg : EnvConfig J) :
    Except String (List (String × Value J)) :=
  createConfigList P env (prefixString cfg.prfx) cfg.strict cfg.vars

/-! ### `validateConfig` (§4.3) -/

/-- The result record `{valid, errors, warnings}`. -/
structure ConfigValidationResult where
  valid : Bool
  errors : List String
  warnings : List String
  deriving DecidableEq

/-- The missing-value branch of `validateConfig`'s loop body: required
keys go to `errors`, optional keys with no default to `warnings`.
Returns the (errors, warnings) contributed by this key. -/
def validateMissing {J : Type} (envKey : String) (vc : EnvVarConfig J) :
    List String × List String :=
  if vc.required then (["Missing required: " ++ envKey], [])
  else
    match vc.default with
    | none => ([], ["Optional not set: " ++ envKey])
    | some _ => ([], [])

/-- The present-value branch of `validateConfig`'s loop body: the
validator, number and JSON checks all run, each contributing its own
error (there is no early exit within a key). -/
def validatePresent {J : Type} (P : Platform J) (envKey : String)
    (vc : EnvVarConfig J) (rawValue : String) : List String :=
  (match vc.validator with
   | some f => if f rawValue then [] else ["Invalid value: " ++ envKey]
   | none => []) ++
  (match vc.type with
   | some VarType.number =>
     match P.parseNumber rawValue with
     | none => ["Invalid number: " ++ envKey]
     | some _ => []
   | _ => []) ++
  (match vc.type with
   | some VarType.json =>
     match P.parseJson rawValue with
     | none => ["Invalid JSON: " ++ envKey]
     | some _ => []
   | _ => [])

/-- One iteration of `validateConfig`'s loop: the (errors, warnings)
contributed by a single schema key. -/
def validateOne {J : Type} (P : Platform J) (env : Env) (prfx : String)
    (key : String) (vc : EnvVarConfig J) : List String × List String :=
  let envKey := prfx ++ key
  match env envKey with
  | none => validateMissing envKey vc
  | some rawValue =>
    if rawValue = "" then validateMissing envKey vc
    else (validatePresent P envKey vc rawValue, [])

/-- `validateConfig(config)`: visits every key, accumulating errors and
warnings; `valid` is `errors.length === 0`.  Never throws and never
stops early (it is a total function over the whole key list). -/
def validateConfig {J : Type} (P : Platform J) (env : Env) (cfg : EnvConfig J) :
    ConfigValidationResult :=
  let prfx := prefixString cfg.prfx
  let results := cfg.vars.map (fun kv => validateOne P env prfx kv.1 kv.2)
  let errors := (results.map Prod.fst).flatten
  let warnings := (results.map Prod.snd).flatten
  { valid := errors.isEmpty, errors := errors, warnings := warnings }

/-! ### Route mapping (§4.4) -/

/-- An element of `createRouteMapping`'s `routes` argument. -/
structure RouteIn where
  path : String
  priceKey : String
  description : Option String := none
  deriving DecidableEq

/-- `RouteConfig` (the `rateLimit` field is never written by
`createRouteMapping` and is omitted). -/
structure RouteConfig where
  path : String
  price : Rat
  description : Option String := none
  deriving DecidableEq

/-- `PriceConfig`: a record from price key to number. -/
abbrev PriceConfig : Type := List (String × Rat)

/-- `prices[key]`: record lookup. -/
def lookupPrice (prices : PriceConfig) (key : String) : Option Rat :=
  (prices.find? (fun p => p.1 == key)).map Prod.snd

/-- The JavaScript expression `prices[route.priceKey] || 0`: `undefined`
falls back to 0, and a present falsy number (0 itself) also yields 0. -/
def priceOrZero (o : Option Rat) : Rat :=
  match o with
  | none => 0
  | some q => if q = 0 then 0 else q

/-- The `RouteConfig` built for one route by `createRouteMapping`. -/
def mkRouteConfig (prices : PriceConfig) (r : RouteIn) : RouteConfig :=
  { path := r.path
    price := priceOrZero (lookupPrice prices r.priceKey)
    description := r.description }

/-- `createRouteMapping`'s loop: `result[route.path] = {...}` assigns into
a record, so a later route with the same path overwrites an earlier one.
The record is modelled by its lookup function. -/
def createRouteMappingFrom (prices : PriceConfig)
    (acc : String → Option RouteConfig) :
    List RouteIn → (String → Option RouteConfig)
  | [] => acc
  | route :: rest =>
    createRouteMappingFrom prices
      (fun p => if p = route.path then some (mkRouteConfig prices route) else acc p)
      rest

/-- `createRouteMapping(routes, prices)` as a lookup function from path
to route configuration. -/
def createRouteMapping (routes : List RouteIn) (prices : PriceConfig) :
    String → Option RouteConfig :=
  createRouteMappingFrom prices (fun _ => none) routes

/-! ### A concrete platform for tests and counterexamples -/

/-- `some` exactly on nonempty decimal-digit strings. -/
def parseDigits (s : String) : Option Nat :=
  if s.data ≠ [] ∧ s.data.all Char.isDigit then
    some (s.data.foldl (fun n c => n * 10 + (c.toNat - 48)) 0)
  else none

/-- A concrete platform for witnesses and counterexamples.  Its
`parseNumber` accepts exactly nonempty decimal-digit strings and its
`parseJson` accepts nothing; this agrees with the host primitives at
every input these theorems use (`parseFloat("abc")` and
`parseFloat("zz")` are NaN, and those strings are not valid JSON). -/
def testPlatform : Platform Unit :=
  { parseNumber := fun s => (parseDigits s).map (fun n => (n : Rat))
    parseJson := fun _ => none }

/-! ### Structural lemmas -/

theorem list_isEmpty_iff {α : Type} (l : List α) : l.isEmpty = true ↔ l = [] := by
  cases l <;> simp [List.isEmpty]

theorem list_isEmpty_false_of_mem {α : Type} {a : α} {l : List α} (h : a ∈ l) :
    l.isEmpty = false := by
  cases l with
  | nil => cases h
  | cons x xs => rfl

theorem resolveOne_eq_missing {J : Type} (P : Platform J) (env : Env) (prfx : String)
    (strict : Option Bool) (k : String) (vc : EnvVarConfig J)
    (h : env (prfx ++ k) = none ∨ env (prfx ++ k) = some "") :
    resolveOne P env prfx strict k vc = resolveMissing (prfx ++ k) strict vc := by
  unfold resolveOne
  rcases h with h | h <;> simp [h]

theorem resolveOne_eq_present {J : Type} (P : Platform J) (env : Env) (prfx : String)
    (strict : Option Bool) (k : String) (vc : EnvVarConfig J) (raw : String)
    (h : env (prfx ++ k) = some raw) (hne : raw ≠ "") :
    resolveOne P env prfx strict k vc = resolvePresent P (prfx ++ k) vc raw := by
  unfold resolveOne
  simp [h, hne]

theorem createConfigList_cons {J : Type} (P : Platform J) (env : Env) (prfx : String)
    (strict : Option Bool) (k : String) (vc : EnvVarConfig J)
    (rest : List (String × EnvVarConfig J)) :
    createConfigList P env prfx strict ((k, vc) :: rest) =
      match resolveOne P env prfx strict k vc with
      | Except.error e => Except.error e
      | Except.ok v =>
        match createConfigList P env prfx strict rest with
        | Except.error e => Except.error e
        | Except.ok tail => Except.ok ((k, v) :: tail) := rfl

theorem createConfigList_isOk {J : Type} (P : Platform J) (env : Env) (prfx : String)
    (strict : Option Bool) (vars : List (String × EnvVarConfig J)) :
    (createConfigList P env prfx strict vars).isOk =
      vars.all (fun kv => (resolveOne P env prfx strict kv.1 kv.2).isOk) := by
  induction vars with
  | nil => rfl
  | cons kv rest ih =>
    obtain ⟨k, vc⟩ := kv
    rw [createConfigList_cons]
    cases hres : resolveOne P env prfx strict k vc with
    | error e => simp [Except.isOk, Except.toBool, hres]
    | ok v =>
      simp only [List.all_cons, hres]
      rw [← ih]
      cases createConfigList P env prfx strict rest <;>
        simp [Except.isOk, Except.toBool]

theorem createConfig_isOk_eq_all {J : Type} (P : Platform J) (env : Env) (cfg : EnvConfig J) :
    (createConfig P env cfg).isOk =
      cfg.vars.all
        (fun kv => (resolveOne P env (prefixString cfg.prfx) cfg.strict kv.1 kv.2).isOk) :=
  createConfigList_isOk P env (prefixString cfg.prfx) cfg.strict cfg.vars

theorem createConfig_not_ok_of_mem {J : Type} (P : Platform J) (env : Env) (cfg : EnvConfig J)
    (kv : String × EnvVarConfig J) (hmem : kv ∈ cfg.vars)
    (h : (resolveOne P env (prefixString cfg.prfx) cfg.strict kv.1 kv.2).isOk = false) :
    (createConfig P env cfg).isOk = false := by
  rw [createConfig_isOk_eq_all]
  cases hall : cfg.vars.all
      (fun kv => (resolveOne P env (prefixString cfg.prfx) cfg.strict kv.1 kv.2).isOk) with
  | false => rfl
  | true =>
    have := List.all_eq_true.mp hall kv hmem
    rw [h] at this
    cases this

theorem createConfigList_append_allOk {J : Type} (P : Platform J) (env : Env) (prfx : String)
    (strict : Option Bool) (pre rest : List (String × EnvVarConfig J))
    (h : ∀ kv ∈ pre, (resolveOne P env prfx strict kv.1 kv.2).isOk = true) :
    ∃ l₁, createConfigList P env prfx strict pre = Except.ok l₁ ∧
      createConfigList P env prfx strict (pre ++ rest) =
        Except.map (fun l₂ => l₁ ++ l₂) (createConfigList P env prfx strict rest) := by
  induction pre with
  | nil =>
    refine ⟨[], rfl, ?_⟩
    rw [List.nil_append]
    cases hr : createConfigList P env prfx strict rest <;> simp [Except.map]
  | cons kv pre ih =>
    obtain ⟨k, vc⟩ := kv
    have hhead := h (k, vc) (List.mem_cons_self _ _)
    have htail : ∀ kv ∈ pre, (resolveOne P env prfx strict kv.1 kv.2).isOk = true :=
      fun kv hkv => h kv (List.mem_cons_of_mem _ hkv)
    obtain ⟨l₁, h1, h2⟩ := ih htail
    cases hres : resolveOne P env prfx strict k vc with
    | error e =>
      rw [hres] at hhead
      simp [Except.isOk, Except.toBool] at hhead
    | ok v =>
      refine ⟨(k, v) :: l₁, ?_, ?_⟩
      · rw [createConfigList_cons, hres, h1]
      · rw [List.cons_append, createConfigList_cons, hres, h2]
        cases hr : createConfigList P env prfx strict rest <;> simp [Except.map]

theorem createConfigList_error_of_first {J : Type} (P : Platform J) (env : Env) (prfx : String)
    (strict : Option Bool) (pre post : List (String × EnvVarConfig J))
    (k : String) (vc : EnvVarConfig J) (e : String)
    (hpre : ∀ kv ∈ pre, (resolveOne P env prfx strict kv.1 kv.2).isOk = true)
    (herr : resolveOne P env prfx strict k vc = Except.error e) :
    createConfigList P env prfx strict (pre ++ (k, vc) :: post) = Except.error e := by
  obtain ⟨l₁, _, h2⟩ :=
    createConfigList_append_allOk P env prfx strict pre ((k, vc) :: post) hpre
  rw [h2]
  unfold createConfigList
  rw [herr]
  rfl

theorem createConfigList_mem_ok {J : Type} (P : Platform J) (env : Env) (prfx : String)
    (strict : Option Bool) (vars : List (String × EnvVarConfig J))
    (l : List (String × Value J))
    (hok : createConfigList P env prfx strict vars = Except.ok l) :
    ∀ kv ∈ vars, ∀ v, resolveOne P env prfx strict kv.1 kv.2 = Except.ok v →
      (kv.1, v) ∈ l := by
  induction vars generalizing l with
  | nil =>
    intro kv hkv
    cases hkv
  | cons kv0 rest ih =>
    obtain ⟨k0, vc0⟩ := kv0
    intro kv hkv v hv
    unfold createConfigList at hok
    cases hres : resolveOne P env prfx strict k0 vc0 with
    | error e =>
      rw [hres] at hok
      exact Except.noConfusion hok
    | ok v0 =>
      rw [hres] at hok
      cases hrest : createConfigList P env prfx strict rest with
      | error e =>
        rw [hrest] at hok
        exact Except.noConfusion hok
      | ok tail =>
        rw [hrest] at hok
        injection hok with hok
        subst hok
        rcases List.mem_cons.mp hkv with rfl | hkv'
        · have hvv : Except.ok (ε := String) v0 = Except.ok v := hres.symm.trans hv
          injection hvv with hvv
          subst hvv
          exact List.mem_cons_self _ _
        · exact List.mem_cons_of_mem _ (ih tail hrest kv hkv' v hv)

theorem validateConfig_mem_errors {J : Type} (P : Platform J) (env : Env) (cfg : EnvConfig J)
    (kv : String × EnvVarConfig J) (hmem : kv ∈ cfg.vars) (e : String)
    (he : e ∈ (validateOne P env (prefixString cfg.prfx) kv.1 kv.2).1) :
    e ∈ (validateConfig P env cfg).errors := by
  show e ∈ ((cfg.vars.map
      (fun kv => validateOne P env (prefixString cfg.prfx) kv.1 kv.2)).map Prod.fst).flatten
  rw [List.mem_flatten]
  refine ⟨(validateOne P env (prefixString cfg.prfx) kv.1 kv.2).1, ?_, he⟩
  exact List.mem_map.mpr ⟨validateOne P env (prefixString cfg.prfx) kv.1 kv.2,
    List.mem_map.mpr ⟨kv, hmem, rfl⟩, rfl⟩

theorem validateConfig_mem_warnings {J : Type} (P : Platform J) (env : Env) (cfg : EnvConfig J)
    (kv : String × EnvVarConfig J) (hmem : kv ∈ cfg.vars) (w : String)
    (hw : w ∈ (validateOne P env (prefixString cfg.prfx) kv.1 kv.2).2) :
    w ∈ (validateConfig P env cfg).warnings := by
  show w ∈ ((cfg.vars.map
      (fun kv => validateOne P env (prefixString cfg.prfx) kv.1 kv.2)).map Prod.snd).flatten
  rw [List.mem_flatten]
  refine ⟨(validateOne P env (prefixString cfg.prfx) kv.1 kv.2).2, ?_, hw⟩
  exact List.mem_map.mpr ⟨validateOne P env (prefixString cfg.prfx) kv.1 kv.2,
    List.mem_map.mpr ⟨kv, hmem, rfl⟩, rfl⟩

theorem validateConfig_warnings_src {J : Type} (P : Platform J) (env : Env) (cfg : EnvConfig J)
    (w : String) (hw : w ∈ (validateConfig P env cfg).warnings) :
    ∃ kv, kv ∈ cfg.vars ∧ w ∈ (validateOne P env (prefixString cfg.prfx) kv.1 kv.2).2 := by
  have hw' : w ∈ ((cfg.vars.map
      (fun kv => validateOne P env (prefixString cfg.prfx) kv.1 kv.2)).map Prod.snd).flatten := hw
  rw [List.mem_flatten] at hw'
  obtain ⟨l, hl, hwl⟩ := hw'
  rw [List.mem_map] at hl
  obtain ⟨pr, hpr, rfl⟩ := hl
  rw [List.mem_map] at hpr
  obtain ⟨kv, hkv, rfl⟩ := hpr
  exact ⟨kv, hkv, hwl⟩

theorem validateConfig_valid_iff {J : Type} (P : Platform J) (env : Env) (cfg : EnvConfig J) :
    (validateConfig P env cfg).valid = true ↔ (validateConfig P env cfg).errors = [] :=
  list_isEmpty_iff _

theorem validateConfig_not_valid_of_mem {J : Type} (P : Platform J) (env : Env)
    (cfg : EnvConfig J) (e : String) (he : e ∈ (validateConfig P env cfg).errors) :
    (validateConfig P env cfg).valid = false :=
  list_isEmpty_false_of_mem he

theorem validateOne_eq_missing {J : Type} (P : Platform J) (env : Env) (prfx k : String)
    (vc : EnvVarConfig J)
    (h : env (prfx ++ k) = none ∨ env (prfx ++ k) = some "") :
    validateOne P env prfx k vc = validateMissing (prfx ++ k) vc := by
  unfold validateOne
  rcases h with h | h <;> simp [h]

theorem validateOne_eq_present {J : Type} (P : Platform J) (env : Env) (prfx k : String)
    (vc : EnvVarConfig J) (raw : String)
    (h : env (prfx ++ k) = some raw) (hne : raw ≠ "") :
    validateOne P env prfx k vc = (validatePresent P (prfx ++ k) vc raw, []) := by
  unfold validateOne
  simp [h, hne]

theorem validateMissing_err_required {J : Type} (envKey : String) (vc : EnvVarConfig J)
    (hreq : vc.required = true) :
    (validateMissing envKey vc).1 = ["Missing required: " ++ envKey] := by
  unfold validateMissing
  rw [hreq]
  rfl

theorem validateMissing_warn_optional {J : Type} (envKey : String) (vc : EnvVarConfig J)
    (hreq : vc.required = false) (hd : vc.default = none) :
    (validateMissing envKey vc).2 = ["Optional not set: " ++ envKey] := by
  unfold validateMissing
  rw [hreq, hd]
  rfl

theorem validateMissing_warn_char {J : Type} (envKey : String) (vc : EnvVarConfig J)
    (w : String) (hw : w ∈ (validateMissing envKey vc).2) :
    vc.required = false ∧ vc.default = none ∧ w = "Optional not set: " ++ envKey := by
  unfold validateMissing at hw
  cases hreq : vc.required with
  | true =>
    rw [hreq] at hw
    simp at hw
  | false =>
    rw [hreq] at hw
    cases hd : vc.default with
    | none =>
      rw [hd] at hw
      simp at hw
      exact ⟨rfl, rfl, hw⟩
    | some d =>
      rw [hd] at hw
      simp at hw

theorem validateOne_warn_char {J : Type} (P : Platform J) (env : Env) (prfx k : String)
    (vc : EnvVarConfig J) (w : String)
    (hw : w ∈ (validateOne P env prfx k vc).2) :
    (env (prfx ++ k) = none ∨ env (prfx ++ k) = some "") ∧
      vc.required = false ∧ vc.default = none ∧
      w = "Optional not set: " ++ (prfx ++ k) := by
  cases henv : env (prfx ++ k) with
  | none =>
    rw [validateOne_eq_missing P env prfx k vc (Or.inl henv)] at hw
    exact ⟨Or.inl rfl, validateMissing_warn_char (prfx ++ k) vc w hw⟩
  | some raw =>
    by_cases hr : raw = ""
    · subst hr
      rw [validateOne_eq_missing P env prfx k vc (Or.inr henv)] at hw
      exact ⟨Or.inr rfl, validateMissing_warn_char (prfx ++ k) vc w hw⟩
    · rw [validateOne_eq_present P env prfx k vc raw henv hr] at hw
      simp at hw

theorem validateOne_missing_err_required {J : Type} (P : Platform J) (env : Env)
    (prfx k : String) (vc : EnvVarConfig J)
    (h : env (prfx ++ k) = none ∨ env (prfx ++ k) = some "")
    (hreq : vc.required = true) :
    (validateOne P env prfx k vc).1 = ["Missing required: " ++ (prfx ++ k)] := by
  rw [validateOne_eq_missing P env prfx k vc h]
  exact validateMissing_err_required (prfx ++ k) vc hreq

theorem validatePresent_mem_invalid {J : Type} (P : Platform J) (envKey : String)
    (vc : EnvVarConfig J) (raw : String) (f : String → Bool)
    (hf : vc.validator = some f) (hfail : f raw = false) :
    ("Invalid value: " ++ envKey) ∈ validatePresent P envKey vc raw := by
  unfold validatePresent
  rw [hf]
  simp [hfail]

theorem validatePresent_mem_number {J : Type} (P : Platform J) (envKey : String)
    (vc : EnvVarConfig J) (raw : String)
    (ht : vc.type = some VarType.number) (hp : P.parseNumber raw = none) :
    ("Invalid number: " ++ envKey) ∈ validatePresent P envKey vc raw := by
  unfold validatePresent
  rw [ht]
  simp [hp]

theorem validatePresent_mem_json {J : Type} (P : Platform J) (envKey : String)
    (vc : EnvVarConfig J) (raw : String)
    (ht : vc.type = some VarType.json) (hp : P.parseJson raw = none) :
    ("Invalid JSON: " ++ envKey) ∈ validatePresent P envKey vc raw := by
  unfold validatePresent
  rw [ht]
  simp [hp]

theorem priceOrZero_eq_getD (o : Option Rat) : priceOrZero o = o.getD 0 := by
  cases o with
  | none => rfl
  | some q =>
    by_cases h : q = 0 <;> simp [priceOrZero, h]

theorem createRouteMappingFrom_not_mem (prices : PriceConfig)
    (acc : String → Option RouteConfig) (routes : List RouteIn) (p : String)
    (h : ∀ r ∈ routes, r.path ≠ p) :
    createRouteMappingFrom prices acc routes p = acc p := by
  induction routes generalizing acc with
  | nil => rfl
  | cons route rest ih =>
    have hhead := h route (List.mem_cons_self _ _)
    have htail : ∀ r ∈ rest, r.path ≠ p := fun r hr => h r (List.mem_cons_of_mem _ hr)
    unfold createRouteMappingFrom
    rw [ih _ htail]
    rw [if_neg (Ne.symm hhead)]

theorem createRouteMappingFrom_mem (prices : PriceConfig)
    (acc : String → Option RouteConfig) (routes : List RouteIn) (r : RouteIn)
    (hnd : (routes.map RouteIn.path).Nodup) (hmem : r ∈ routes) :
    createRouteMappingFrom prices acc routes r.path = some (mkRouteConfig prices r) := by
  induction routes generalizing acc with
  | nil => cases hmem
  | cons route rest ih =>
    have hnotin : route.path ∉ rest.map RouteIn.path := (List.nodup_cons.mp hnd).1
    have hnd' : (rest.map RouteIn.path).Nodup := (List.nodup_cons.mp hnd).2
    rcases List.mem_cons.mp hmem with rfl | hmem'
    · have hne : ∀ x ∈ rest, x.path ≠ r.path := by
        intro x hx hcontra
        exact hnotin (hcontra ▸ List.mem_map_of_mem RouteIn.path hx)
      unfold createRouteMappingFrom
      rw [createRouteMappingFrom_not_mem prices _ rest r.path hne]
      simp
    · unfold createRouteMappingFrom
      exact ih _ hnd' hmem'

/-- The value the missing-value branch resolves to when it does not
throw: the declared default embedded verbatim, else `undefined`. -/
def missingValue {J : Type} (vc : EnvVarConfig J) : Value J :=
  match vc.default with
  | some d => d.toValue
  | none => Value.undef

theorem resolveMissing_ok {J : Type} (envKey : String) (strict : Option Bool)
    (vc : EnvVarConfig J)
    (hc : (vc.required && !(strict == some false)) = false) :
    resolveMissing envKey strict vc = Except.ok (missingValue vc) := by
  unfold resolveMissing missingValue
  rw [hc]
  cases vc.default <;> rfl

theorem resolveMissing_err {J : Type} (envKey : String) (strict : Option Bool)
    (vc : EnvVarConfig J)
    (hc : (vc.required && !(strict == some false)) = true) :
    resolveMissing envKey strict vc =
      Except.error ("Required environment variable " ++ envKey ++ " is not set") := by
  unfold resolveMissing
  rw [hc]
  rfl

/-! ### Claim theorems -/

/-- Environment for the C1 counterexample: `PORT` is set to `"abc"`. -/
def c1Env : Env := fun k => if k = "PORT" then some "abc" else none

/-- Schema for the C1 counterexample: one key, not required, declared
`type: "number"`. -/
def c1Cfg : EnvConfig Unit :=
  { vars := [("PORT", { required := false, type := some VarType.number })] }

/-- C1 counterexample: a schema whose only rule has `required` false on
which `createConfig` still throws — the optional key has `type: "number"`
and the environment holds `"abc"`, which `parseFloat` rejects (NaN), so
the coercion is fatal.  This refutes the claim that `createConfig` never
fails for schemas with no required keys. -/
theorem createConfig_no_required_counterexample :
    (∀ kv ∈ c1Cfg.vars, kv.2.required = false) ∧
    createConfig testPlatform c1Env c1Cfg =
      Except.error "Invalid number for environment variable PORT" := by
  constructor
  · decide
  · rfl

/-- C1 (amended): for every platform, environment and schema whose rules
all have `required` unset or false, no validator, and either a transform
set or a declared type that is neither `"number"` nor `"json"`,
`createConfig` returns normally. -/
theorem createConfig_no_required_amended {J : Type} (P : Platform J) (env : Env)
    (cfg : EnvConfig J)
    (h : ∀ kv ∈ cfg.vars, kv.2.required = false ∧ kv.2.validator.isNone = true ∧
      (kv.2.transform.isSome = true ∨
        (kv.2.type ≠ some VarType.number ∧ kv.2.type ≠ some VarType.json))) :
    (createConfig P env cfg).isOk = true := by
  rw [createConfig_isOk_eq_all, List.all_eq_true]
  intro kv hkv
  obtain ⟨hreq, hval, hrest⟩ := h kv hkv
  have hcond : (kv.2.required && !(cfg.strict == some false)) = false := by
    rw [hreq]
    rfl
  cases henv : env (prefixString cfg.prfx ++ kv.1) with
  | none =>
    rw [resolveOne_eq_missing P env _ _ kv.1 kv.2 (Or.inl henv),
      resolveMissing_ok _ _ _ hcond]
    rfl
  | some raw =>
    by_cases hr : raw = ""
    · subst hr
      rw [resolveOne_eq_missing P env _ _ kv.1 kv.2 (Or.inr henv),
        resolveMissing_ok _ _ _ hcond]
      rfl
    · rw [resolveOne_eq_present P env _ _ kv.1 kv.2 raw henv hr]
      unfold resolvePresent
      rw [Option.isNone_iff_eq_none.mp hval]
      cases htr : kv.2.transform with
      | some t => rfl
      | none =>
        rcases hrest with hsome | ⟨hn, hj⟩
        · rw [htr] at hsome
          simp at hsome
        · unfold coerceByType
          cases hty : kv.2.type with
          | none => rfl
          | some ty =>
            cases ty with
            | number => exact absurd hty hn
            | json => exact absurd hty hj
            | string => rfl
            | boolean => rfl

/-- Environment for the C1 witness. -/
def c1wEnv : Env := fun k => if k = "DEBUG" then some "yes" else none

/-- Schema for the C1 witness: one optional boolean key. -/
def c1wCfg : EnvConfig Unit :=
  { vars := [("DEBUG", { type := some VarType.boolean })] }

/-- Witness for the amended C1 at a concrete schema and environment. -/
theorem createConfig_no_required_amended_witness :
    (∀ kv ∈ c1wCfg.vars, kv.2.required = false ∧ kv.2.validator.isNone = true ∧
      (kv.2.transform.isSome = true ∨
        (kv.2.type ≠ some VarType.number ∧ kv.2.type ≠ some VarType.json))) ∧
    (createConfig testPlatform c1wEnv c1wCfg).isOk = true :=
  ⟨by decide, createConfig_no_required_amended testPlatform c1wEnv c1wCfg (by decide)⟩

/-- C7: `getRequiredEnv(key)` throws an error naming the variable exactly
when the variable is absent or set to the empty string, and otherwise
returns the raw string unchanged. -/
theorem getRequiredEnv_spec (env : Env) (key : String) :
    ((env key = none ∨ env key = some "") →
      getRequiredEnv env key =
        Except.error ("Required environment variable " ++ key ++ " is not set")) ∧
    (∀ v, env key = some v → v ≠ "" → getRequiredEnv env key = Except.ok v) := by
  constructor
  · intro h
    unfold getRequiredEnv
    rcases h with h | h <;> simp [h]
  · intro v hv hne
    unfold getRequiredEnv
    simp [hv, hne]

/-- Environment for the C7 witness. -/
def c7Env : Env := fun k => if k = "HOST" then some "localhost" else none

/-- Witness for C7: a missing variable throws a message naming it, and a
present nonempty variable is returned unchanged. -/
theorem getRequiredEnv_spec_witness :
    (c7Env "PORT" = none ∧
      getRequiredEnv c7Env "PORT" =
        Except.error "Required environment variable PORT is not set") ∧
    (c7Env "HOST" = some "localhost" ∧
      getRequiredEnv c7Env "HOST" = Except.ok "localhost") :=
  ⟨⟨rfl, (getRequiredEnv_spec c7Env "PORT").1 (Or.inl rfl)⟩,
   ⟨rfl, (getRequiredEnv_spec c7Env "HOST").2 "localhost" rfl (by decide)⟩⟩

/-- C8: `getEnvBoolean(key, default)` yields the default when the
variable is absent, and otherwise is true exactly when the lower-cased
value equals `"true"` or the value equals `"1"`; in particular `"true"`,
`"TRUE"` and `"1"` map to true while `"false"`, `"0"` and `"yes"` map to
false. -/
theorem getEnvBoolean_spec (env : Env) (key : String) (d : Option Bool) :
    (env key = none → getEnvBoolean env key d = d) ∧
    (∀ v, env key = some v →
      getEnvBoolean env key d = some (jsBool v) ∧
      (getEnvBoolean env key d = some true ↔ (jsToLower v = "true" ∨ v = "1"))) ∧
    (jsBool "true" = true ∧ jsBool "TRUE" = true ∧ jsBool "1" = true ∧
      jsBool "false" = false ∧ jsBool "0" = false ∧ jsBool "yes" = false) := by
  refine ⟨?_, ?_, by decide⟩
  · intro h
    unfold getEnvBoolean
    rw [h]
  · intro v hv
    refine ⟨by unfold getEnvBoolean; rw [hv], ?_⟩
    unfold getEnvBoolean
    rw [hv]
    simp [jsBool]

/-- Environment for the C8 witness. -/
def c8Env : Env := fun k => if k = "FLAG" then some "TRUE" else none

/-- Witness for C8: an upper-cased `"TRUE"` yields true. -/
theorem getEnvBoolean_spec_witness :
    c8Env "FLAG" = some "TRUE" ∧
    getEnvBoolean c8Env "FLAG" (some false) = some true := by
  refine ⟨rfl, ?_⟩
  have h := ((getEnvBoolean_spec c8Env "FLAG" (some false)).2.1 "TRUE" rfl).1
  rw [h]
  decide

/-- C9: `getEnv(key, default)` returns the default only when the variable
was never set; a variable set to the empty string yields the empty string
itself, not the default. -/
theorem getEnv_spec (env : Env) (key : String) (d : Option String) :
    (env key = none → getEnv env key d = d) ∧
    (∀ v, env key = some v → getEnv env key d = some v) ∧
    (env key = some "" → getEnv env key d = some "") := by
  refine ⟨?_, ?_, ?_⟩
  · intro h
    unfold getEnv
    rw [h]
  · intro v hv
    unfold getEnv
    rw [hv]
  · intro h
    unfold getEnv
    rw [h]

/-- Environment for the C9 witness: `EMPTY` is set to the empty string. -/
def c9Env : Env := fun k => if k = "EMPTY" then some "" else none

/-- Witness for C9: with a default supplied, the empty string is
returned, not the default. -/
theorem getEnv_spec_witness :
    c9Env "EMPTY" = some "" ∧ getEnv c9Env "EMPTY" (some "fallback") = some "" :=
  ⟨rfl, (getEnv_spec c9Env "EMPTY" (some "fallback")).2.2 rfl⟩

/-- C10: for every route in the input list (paths being distinct, as the
keys of a record are), `createRouteMapping` maps the route's path to
`{path, price, description}`, where `price` is the looked-up price when
`priceKey` is present in `prices` and 0 when it is absent. -/
theorem createRouteMapping_spec (routes : List RouteIn) (prices : PriceConfig)
    (r : RouteIn) (hnd : (routes.map RouteIn.path).Nodup) (hmem : r ∈ routes) :
    createRouteMapping routes prices r.path =
      some { path := r.path
             price := (lookupPrice prices r.priceKey).getD 0
             description := r.description } := by
  unfold createRouteMapping
  rw [createRouteMappingFrom_mem prices _ routes r hnd hmem]
  unfold mkRouteConfig
  rw [priceOrZero_eq_getD]

/-- C4: `validateConfig` is total (a Lean function: it never throws) and
never stops early: for every schema and environment, `valid` is true iff
`errors` is empty; every missing required key, validator failure,
unparsable number and unparsable JSON contributes its message to
`errors`; every optional key that is unset with no default contributes a
warning; and every warning comes from an optional unset key with no
default — so a missing required key never lands in `warnings`. -/
theorem validateConfig_accumulates {J : Type} (P : Platform J) (env : Env)
    (cfg : EnvConfig J) :
    ((validateConfig P env cfg).valid = true ↔ (validateConfig P env cfg).errors = []) ∧
    (∀ kv ∈ cfg.vars,
      (env (prefixString cfg.prfx ++ kv.1) = none ∨
        env (prefixString cfg.prfx ++ kv.1) = some "") →
      kv.2.required = true →
        ("Missing required: " ++ (prefixString cfg.prfx ++ kv.1)) ∈
          (validateConfig P env cfg).errors) ∧
    (∀ kv ∈ cfg.vars,
      (env (prefixString cfg.prfx ++ kv.1) = none ∨
        env (prefixString cfg.prfx ++ kv.1) = some "") →
      kv.2.required = false → kv.2.default = none →
        ("Optional not set: " ++ (prefixString cfg.prfx ++ kv.1)) ∈
          (validateConfig P env cfg).warnings) ∧
    (∀ kv ∈ cfg.vars, ∀ raw,
      env (prefixString cfg.prfx ++ kv.1) = some raw → raw ≠ "" →
      (∀ f, kv.2.validator = some f → f raw = false →
        ("Invalid value: " ++ (prefixString cfg.prfx ++ kv.1)) ∈
          (validateConfig P env cfg).errors) ∧
      (kv.2.type = some VarType.number → P.parseNumber raw = none →
        ("Invalid number: " ++ (prefixString cfg.prfx ++ kv.1)) ∈
          (validateConfig P env cfg).errors) ∧
      (kv.2.type = some VarType.json → P.parseJson raw = none →
        ("Invalid JSON: " ++ (prefixString cfg.prfx ++ kv.1)) ∈
          (validateConfig P env cfg).errors)) ∧
    (∀ w ∈ (validateConfig P env cfg).warnings, ∃ kv, kv ∈ cfg.vars ∧
      (env (prefixString cfg.prfx ++ kv.1) = none ∨
        env (prefixString cfg.prfx ++ kv.1) = some "") ∧
      kv.2.required = false ∧ kv.2.default = none ∧
      w = "Optional not set: " ++ (prefixString cfg.prfx ++ kv.1)) := by
  refine ⟨validateConfig_valid_iff P env cfg, ?_, ?_, ?_, ?_⟩
  · intro kv hkv hmiss hreq
    apply validateConfig_mem_errors P env cfg kv hkv
    rw [validateOne_missing_err_required P env _ kv.1 kv.2 hmiss hreq]
    simp
  · intro kv hkv hmiss hreq hd
    apply validateConfig_mem_warnings P env cfg kv hkv
    rw [validateOne_eq_missing P env _ kv.1 kv.2 hmiss,
      validateMissing_warn_optional _ kv.2 hreq hd]
    simp
  · intro kv hkv raw hraw hne
    refine ⟨?_, ?_, ?_⟩
    · intro f hf hfail
      apply validateConfig_mem_errors P env cfg kv hkv
      rw [validateOne_eq_present P env _ kv.1 kv.2 raw hraw hne]
      exact validatePresent_mem_invalid P _ kv.2 raw f hf hfail
    · intro ht hp
      apply validateConfig_mem_errors P env cfg kv hkv
      rw [validateOne_eq_present P env _ kv.1 kv.2 raw hraw hne]
      exact validatePresent_mem_number P _ kv.2 raw ht hp
    · intro ht hp
      apply validateConfig_mem_errors P env cfg kv hkv
      rw [validateOne_eq_present P env _ kv.1 kv.2 raw hraw hne]
      exact validatePresent_mem_json P _ kv.2 raw ht hp
  · intro w hw
    obtain ⟨kv, hkv, hkw⟩ := validateConfig_warnings_src P env cfg w hw
    obtain ⟨hmiss, hreq, hd, hwe⟩ := validateOne_warn_char P env _ kv.1 kv.2 w hkw
    exact ⟨kv, hkv, hmiss, hreq, hd, hwe⟩

/-- Environment for the C4 witness: `COUNT` holds an unparsable number,
`NAME` and `EXTRA` are unset. -/
def c4Env : Env := fun k => if k = "COUNT" then some "xyz" else none

/-- Schema for the C4 witness: a required key, a numeric key and a plain
optional key. -/
def c4Cfg : EnvConfig Unit :=
  { vars := [("NAME", { required := true }),
             ("COUNT", { type := some VarType.number }),
             ("EXTRA", {})] }

/-- Witness for C4: both the missing-required error and the bad-number
error accumulate, the optional unset key warns, and `valid` is false. -/
theorem validateConfig_accumulates_witness :
    "Missing required: NAME" ∈ (validateConfig testPlatform c4Env c4Cfg).errors ∧
    "Invalid number: COUNT" ∈ (validateConfig testPlatform c4Env c4Cfg).errors ∧
    "Optional not set: EXTRA" ∈ (validateConfig testPlatform c4Env c4Cfg).warnings ∧
    (validateConfig testPlatform c4Env c4Cfg).valid = false := by
  have h := validateConfig_accumulates testPlatform c4Env c4Cfg
  have h1 : "Missing required: NAME" ∈ (validateConfig testPlatform c4Env c4Cfg).errors :=
    h.2.1 _ (List.mem_cons_self _ _) (Or.inl rfl) rfl
  refine ⟨h1, ?_, ?_, validateConfig_not_valid_of_mem testPlatform c4Env c4Cfg _ h1⟩
  · exact (h.2.2.2.1 _ (List.mem_cons_of_mem _ (List.mem_cons_self _ _)) "xyz" rfl
      (by decide)).2.1 rfl rfl
  · exact h.2.2.1 _
      (List.mem_cons_of_mem _ (List.mem_cons_of_mem _ (List.mem_cons_self _ _)))
      (Or.inl rfl) rfl rfl

/-- C5: `validateConfig` ignores the schema's `strict` flag: with
`strict: false` and a required key whose value is absent or empty,
`validateConfig` still reports the key in `errors` and returns
`valid = false`, even though `createConfig` resolves that same key
without throwing (and succeeds outright when every other key also
resolves). -/
theorem validateConfig_ignores_strict {J : Type} (P : Platform J) (env : Env)
    (cfg : EnvConfig J) (k : String) (vc : EnvVarConfig J)
    (hstrict : cfg.strict = some false) (hmem : (k, vc) ∈ cfg.vars)
    (hreq : vc.required = true)
    (hmiss : env (prefixString cfg.prfx ++ k) = none ∨
      env (prefixString cfg.prfx ++ k) = some "") :
    ("Missing required: " ++ (prefixString cfg.prfx ++ k)) ∈
      (validateConfig P env cfg).errors ∧
    (validateConfig P env cfg).valid = false ∧
    resolveOne P env (prefixString cfg.prfx) cfg.strict k vc =
      Except.ok (missingValue vc) ∧
    ((∀ kv ∈ cfg.vars,
        (resolveOne P env (prefixString cfg.prfx) cfg.strict kv.1 kv.2).isOk = true) →
      (createConfig P env cfg).isOk = true) := by
  have hmerr : ("Missing required: " ++ (prefixString cfg.prfx ++ k)) ∈
      (validateConfig P env cfg).errors := by
    apply validateConfig_mem_errors P env cfg (k, vc) hmem
    rw [validateOne_missing_err_required P env _ k vc hmiss hreq]
    simp
  refine ⟨hmerr, validateConfig_not_valid_of_mem P env cfg _ hmerr, ?_, ?_⟩
  · rw [resolveOne_eq_missing P env _ _ k vc hmiss]
    apply resolveMissing_ok
    rw [hstrict, hreq]
    rfl
  · intro hall
    rw [createConfig_isOk_eq_all]
    exact List.all_eq_true.mpr hall

/-- Environment for the C5 witness: nothing is set. -/
def c5Env : Env := fun _ => none

/-- Schema for the C5 witness: one required key under `strict: false`. -/
def c5Cfg : EnvConfig Unit :=
  { vars := [("TOKEN", { required := true })], strict := some false }

/-- Witness for C5: `validateConfig` rejects while `createConfig`
succeeds on the same schema and environment. -/
theorem validateConfig_ignores_strict_witness :
    (validateConfig testPlatform c5Env c5Cfg).valid = false ∧
    (createConfig testPlatform c5Env c5Cfg).isOk = true := by
  have h := validateConfig_ignores_strict testPlatform c5Env c5Cfg "TOKEN"
    { required := true } rfl (List.mem_cons_self _ _) rfl (Or.inl rfl)
  exact ⟨h.2.1, h.2.2.2 (by decide)⟩

/-- C6: `validateConfig` applies the declared type check even when a
transform is set: a key with both a transform and `type: "number"` (or
`"json"`) whose present value does not parse gets an error and makes
`valid` false, while `createConfig` resolves that same key through the
transform, bypassing type coercion. -/
theorem validateConfig_checks_type_despite_transform {J : Type} (P : Platform J)
    (env : Env) (cfg : EnvConfig J) (k : String) (vc : EnvVarConfig J)
    (raw : String) (t : String → Value J)
    (hmem : (k, vc) ∈ cfg.vars)
    (hraw : env (prefixString cfg.prfx ++ k) = some raw) (hne : raw ≠ "")
    (hvpass : ∀ f, vc.validator = some f → f raw = true)
    (htr : vc.transform = some t) :
    ((vc.type = some VarType.number → P.parseNumber raw = none →
        ("Invalid number: " ++ (prefixString cfg.prfx ++ k)) ∈
          (validateConfig P env cfg).errors ∧
        (validateConfig P env cfg).valid = false) ∧
      (vc.type = some VarType.json → P.parseJson raw = none →
        ("Invalid JSON: " ++ (prefixString cfg.prfx ++ k)) ∈
          (validateConfig P env cfg).errors ∧
        (validateConfig P env cfg).valid = false)) ∧
    resolveOne P env (prefixString cfg.prfx) cfg.strict k vc = Except.ok (t raw) := by
  refine ⟨⟨?_, ?_⟩, ?_⟩
  · intro ht hp
    have hm : ("Invalid number: " ++ (prefixString cfg.prfx ++ k)) ∈
        (validateConfig P env cfg).errors := by
      apply validateConfig_mem_errors P env cfg (k, vc) hmem
      rw [validateOne_eq_present P env _ k vc raw hraw hne]
      exact validatePresent_mem_number P _ vc raw ht hp
    exact ⟨hm, validateConfig_not_valid_of_mem P env cfg _ hm⟩
  · intro ht hp
    have hm : ("Invalid JSON: " ++ (prefixString cfg.prfx ++ k)) ∈
        (validateConfig P env cfg).errors := by
      apply validateConfig_mem_errors P env cfg (k, vc) hmem
      rw [validateOne_eq_present P env _ k vc raw hraw hne]
      exact validatePresent_mem_json P _ vc raw ht hp
    exact ⟨hm, validateConfig_not_valid_of_mem P env cfg _ hm⟩
  · rw [resolveOne_eq_present P env _ _ k vc raw hraw hne]
    unfold resolvePresent
    have hcond : (match vc.validator with
        | some f => !(f raw)
        | none => false) = false := by
      cases hv : vc.validator with
      | none => rfl
      | some f =>
        show (!(f raw)) = false
        rw [hvpass f hv]
        rfl
    rw [hcond, htr]
    rfl

/-- C2: for a schema key whose environment value is absent or empty —
when the rule is required and `strict` is not `false`, `createConfig`
throws an error naming the actual environment name (the first failure
aborting the whole resolution, with no partial result); otherwise the
key resolves to the declared default verbatim (no coercion) when one is
set, and to `undefined` when none is. -/
theorem createConfig_missing_value_cases {J : Type} (P : Platform J) (env : Env)
    (cfg : EnvConfig J) (pre post : List (String × EnvVarConfig J))
    (k : String) (vc : EnvVarConfig J)
    (hvars : cfg.vars = pre ++ (k, vc) :: post)
    (hmiss : env (prefixString cfg.prfx ++ k) = none ∨
      env (prefixString cfg.prfx ++ k) = some "") :
    ((vc.required = true ∧ cfg.strict ≠ some false) →
      ((∀ kv ∈ pre,
          (resolveOne P env (prefixString cfg.prfx) cfg.strict kv.1 kv.2).isOk = true) →
        createConfig P env cfg =
          Except.error ("Required environment variable " ++
            (prefixString cfg.prfx ++ k) ++ " is not set")) ∧
      (createConfig P env cfg).isOk = false) ∧
    (¬(vc.required = true ∧ cfg.strict ≠ some false) →
      resolveOne P env (prefixString cfg.prfx) cfg.strict k vc =
        Except.ok (missingValue vc) ∧
      (∀ l, createConfig P env cfg = Except.ok l → (k, missingValue vc) ∈ l)) := by
  have hk : resolveOne P env (prefixString cfg.prfx) cfg.strict k vc =
      resolveMissing (prefixString cfg.prfx ++ k) cfg.strict vc :=
    resolveOne_eq_missing P env _ _ k vc hmiss
  have hmemk : (k, vc) ∈ cfg.vars := by
    rw [hvars]
    exact List.mem_append_right _ (List.mem_cons_self _ _)
  constructor
  · rintro ⟨hreq, hstrict⟩
    have hcond : (vc.required && !(cfg.strict == some false)) = true := by
      rw [hreq]
      cases hs : cfg.strict with
      | none => rfl
      | some b =>
        cases b with
        | false => exact absurd hs hstrict
        | true => rfl
    have herr : resolveOne P env (prefixString cfg.prfx) cfg.strict k vc =
        Except.error ("Required environment variable " ++
          (prefixString cfg.prfx ++ k) ++ " is not set") := by
      rw [hk]
      exact resolveMissing_err _ _ _ hcond
    constructor
    · intro hpre
      unfold createConfig
      rw [hvars]
      exact createConfigList_error_of_first P env _ _ pre post k vc _ hpre herr
    · apply createConfig_not_ok_of_mem P env cfg (k, vc) hmemk
      show (resolveOne P env (prefixString cfg.prfx) cfg.strict k vc).isOk = false
      rw [herr]
      rfl
  · intro hnot
    have hcond : (vc.required && !(cfg.strict == some false)) = false := by
      cases hreq : vc.required with
      | false => rfl
      | true =>
        have hstrict : cfg.strict = some false := by
          by_contra hc
          exact hnot ⟨hreq, hc⟩
        rw [hstrict]
        rfl
    have hok : resolveOne P env (prefixString cfg.prfx) cfg.strict k vc =
        Except.ok (missingValue vc) := by
      rw [hk]
      exact resolveMissing_ok _ _ _ hcond
    refine ⟨hok, ?_⟩
    intro l hl
    exact createConfigList_mem_ok P env _ _ cfg.vars l hl (k, vc) hmemk _ hok

/-- Environment for the C2 witness: nothing is set. -/
def c2Env : Env := fun _ => none

/-- Schema for the C2 witness: one required key, default strictness. -/
def c2Cfg : EnvConfig Unit :=
  { vars := [("API_KEY", { required := true })] }

/-- Witness for C2: a required missing key under default strictness
throws the error naming the variable, producing no result. -/
theorem createConfig_missing_value_cases_witness :
    c2Env "API_KEY" = none ∧
    createConfig testPlatform c2Env c2Cfg =
      Except.error "Required environment variable API_KEY is not set" ∧
    (createConfig testPlatform c2Env c2Cfg).isOk = false := by
  have h := createConfig_missing_value_cases testPlatform c2Env c2Cfg [] []
    "API_KEY" { required := true } rfl (Or.inl rfl)
  have h1 := h.1 ⟨rfl, fun hc => Option.noConfusion hc⟩
  exact ⟨rfl, h1.1 (fun kv hkv => absurd hkv (List.not_mem_nil kv)), h1.2⟩

/-- C3: for a schema key whose environment value is present and
nonempty — a failing validator throws (aborting); otherwise a transform,
when set, produces `transform(raw)` with the type field ignored;
otherwise `type: "number"` float-parses and throws on parse failure,
`type: "boolean"` is true iff the lower-cased value is `"true"` or the
value is `"1"`, `type: "json"` JSON-parses and throws on parse failure,
and any other type yields the raw string unchanged. -/
theorem createConfig_present_value_cases {J : Type} (P : Platform J) (env : Env)
    (cfg : EnvConfig J) (k : String) (vc : EnvVarConfig J) (raw : String)
    (hmem : (k, vc) ∈ cfg.vars)
    (hraw : env (prefixString cfg.prfx ++ k) = some raw) (hne : raw ≠ "") :
    (∀ f, vc.validator = some f → f raw = false →
      resolveOne P env (prefixString cfg.prfx) cfg.strict k vc =
        Except.error ("Invalid value for environment variable " ++
          (prefixString cfg.prfx ++ k)) ∧
      (createConfig P env cfg).isOk = false) ∧
    ((∀ f, vc.validator = some f → f raw = true) →
      (∀ t, vc.transform = some t →
        resolveOne P env (prefixString cfg.prfx) cfg.strict k vc =
          Except.ok (t raw) ∧
        (∀ l, createConfig P env cfg = Except.ok l → (k, t raw) ∈ l)) ∧
      (vc.transform = none →
        (vc.type = some VarType.number →
          (P.parseNumber raw = none →
            resolveOne P env (prefixString cfg.prfx) cfg.strict k vc =
              Except.error ("Invalid number for environment variable " ++
                (prefixString cfg.prfx ++ k)) ∧
            (createConfig P env cfg).isOk = false) ∧
          (∀ q, P.parseNumber raw = some q →
            resolveOne P env (prefixString cfg.prfx) cfg.strict k vc =
              Except.ok (Value.num q))) ∧
        (vc.type = some VarType.boolean →
          resolveOne P env (prefixString cfg.prfx) cfg.strict k vc =
            Except.ok (Value.bool (jsBool raw))) ∧
        (vc.type = some VarType.json →
          (P.parseJson raw = none →
            resolveOne P env (prefixString cfg.prfx) cfg.strict k vc =
              Except.error ("Invalid JSON for environment variable " ++
                (prefixString cfg.prfx ++ k)) ∧
            (createConfig P env cfg).isOk = false) ∧
          (∀ j, P.parseJson raw = some j →
            resolveOne P env (prefixString cfg.prfx) cfg.strict k vc =
              Except.ok (Value.json j))) ∧
        ((vc.type = none ∨ vc.type = some VarType.string) →
          resolveOne P env (prefixString cfg.prfx) cfg.strict k vc =
            Except.ok (Value.str raw)))) := by
  have hpres : resolveOne P env (prefixString cfg.prfx) cfg.strict k vc =
      resolvePresent P (prefixString cfg.prfx ++ k) vc raw :=
    resolveOne_eq_present P env _ _ k vc raw hraw hne
  constructor
  · intro f hf hfail
    have herr : resolveOne P env (prefixString cfg.prfx) cfg.strict k vc =
        Except.error ("Invalid value for environment variable " ++
          (prefixString cfg.prfx ++ k)) := by
      rw [hpres]
      unfold resolvePresent
      rw [hf]
      simp [hfail]
    refine ⟨herr, ?_⟩
    apply createConfig_not_ok_of_mem P env cfg (k, vc) hmem
    show (resolveOne P env (prefixString cfg.prfx) cfg.strict k vc).isOk = false
    rw [herr]
    rfl
  · intro hvpass
    have hcond : (match vc.validator with
        | some f => !(f raw)
        | none => false) = false := by
      cases hv : vc.validator with
      | none => rfl
      | some f =>
        show (!(f raw)) = false
        rw [hvpass f hv]
        rfl
    have hafter : resolveOne P env (prefixString cfg.prfx) cfg.strict k vc =
        (match vc.transform with
         | some t => Except.ok (t raw)
         | none => coerceByType P (prefixString cfg.prfx ++ k) vc.type raw) := by
      rw [hpres]
      unfold resolvePresent
      rw [hcond]
      exact if_neg (fun hc => Bool.noConfusion hc)
    refine ⟨?_, ?_⟩
    · intro t htr
      have hok : resolveOne P env (prefixString cfg.prfx) cfg.strict k vc =
          Except.ok (t raw) := by
        rw [hafter, htr]
      exact ⟨hok, fun l hl =>
        createConfigList_mem_ok P env _ _ cfg.vars l hl (k, vc) hmem _ hok⟩
    · intro htr
      have hco : resolveOne P env (prefixString cfg.prfx) cfg.strict k vc =
          coerceByType P (prefixString cfg.prfx ++ k) vc.type raw := by
        rw [hafter, htr]
      refine ⟨?_, ?_, ?_, ?_⟩
      · intro ht
        constructor
        · intro hpn
          have herr : resolveOne P env (prefixString cfg.prfx) cfg.strict k vc =
              Except.error ("Invalid number for environment variable " ++
                (prefixString cfg.prfx ++ k)) := by
            rw [hco]
            unfold coerceByType
            rw [ht, hpn]
          refine ⟨herr, ?_⟩
          apply createConfig_not_ok_of_mem P env cfg (k, vc) hmem
          show (resolveOne P env (prefixString cfg.prfx) cfg.strict k vc).isOk = false
          rw [herr]
          rfl
        · intro q hq
          rw [hco]
          unfold coerceByType
          rw [ht, hq]
      · intro ht
        rw [hco]
        unfold coerceByType
        rw [ht]
      · intro ht
        constructor
        · intro hpn
          have herr : resolveOne P env (prefixString cfg.prfx) cfg.strict k vc =
              Except.error ("Invalid JSON for environment variable " ++
                (prefixString cfg.prfx ++ k)) := by
            rw [hco]
            unfold coerceByType
            rw [ht, hpn]
          refine ⟨herr, ?_⟩
          apply createConfig_not_ok_of_mem P env cfg (k, vc) hmem
          show (resolveOne P env (prefixString cfg.prfx) cfg.strict k vc).isOk = false
          rw [herr]
          rfl
        · intro j hj
          rw [hco]
          unfold coerceByType
          rw [ht, hj]
      · intro ht
        rcases ht with ht | ht <;>
          (rw [hco]; unfold coerceByType; rw [ht])

/-- Environment for the C3 witness: `MODE` holds `"1"`. -/
def c3Env : Env := fun k => if k = "MODE" then some "1" else none

/-- Schema for the C3 witness: one boolean-typed key. -/
def c3Cfg : EnvConfig Unit :=
  { vars := [("MODE", { type := some VarType.boolean })] }

/-- Witness for C3: the boolean coercion resolves `"1"` to `true`. -/
theorem createConfig_present_value_cases_witness :
    c3Env "MODE" = some "1" ∧
    resolveOne testPlatform c3Env "" none "MODE" { type := some VarType.boolean } =
      Except.ok (Value.bool true) := by
  have h := createConfig_present_value_cases testPlatform c3Env c3Cfg "MODE"
    { type := some VarType.boolean } "1" (List.mem_cons_self _ _) rfl (by decide)
  have hb := (h.2 (fun f hf => Option.noConfusion hf)).2 rfl
  exact ⟨rfl, hb.2.1 rfl⟩

/-- Environment for the C6 witness: `LIMIT` holds a non-numeric value. -/
def c6Env : Env := fun k => if k = "LIMIT" then some "zz" else none

/-- Schema for the C6 witness: `LIMIT` has both `type: "number"` and a
transform. -/
def c6Cfg : EnvConfig Unit :=
  { vars := [("LIMIT", { type := some VarType.number,
                         transform := some (fun s => Value.str s) })] }

/-- Witness for C6: `validateConfig` rejects the unparsable number while
`createConfig`'s per-key resolution succeeds through the transform. -/
theorem validateConfig_checks_type_despite_transform_witness :
    (validateConfig testPlatform c6Env c6Cfg).valid = false ∧
    resolveOne testPlatform c6Env "" none "LIMIT"
      { type := some VarType.number, transform := some (fun s => Value.str s) } =
      Except.ok (Value.str "zz") := by
  have h := validateConfig_checks_type_despite_transform testPlatform c6Env c6Cfg
    "LIMIT" { type := some VarType.number, transform := some (fun s => Value.str s) }
    "zz" (fun s => Value.str s) (List.mem_cons_self _ _) rfl (by decide)
    (by intro f hf; exact Option.noConfusion hf) rfl
  exact ⟨(h.1.1 rfl rfl).2, h.2⟩

/-- Witness for C10: the spec's own example — a single route whose
`priceKey` is absent from the (empty) price table resolves to price 0. -/
theorem createRouteMapping_spec_witness :
    ((([⟨"/a", "missing", none⟩] : List RouteIn).map RouteIn.path).Nodup ∧
      (⟨"/a", "missing", none⟩ : RouteIn) ∈ ([⟨"/a", "missing", none⟩] : List RouteIn)) ∧
    createRouteMapping [⟨"/a", "missing", none⟩] [] "/a" =
      some ⟨"/a", 0, none⟩ := by
  refine ⟨⟨by decide, by decide⟩, ?_⟩
  exact createRouteMapping_spec [⟨"/a", "missing", none⟩] [] ⟨"/a", "missing", none⟩
    (by decide) (by decide)

end Config
